import Mathlib

/-!
Verification of the entity-resolution layer of FlyFlav/Flinder
(src/minder/types.py): the `DiscordMember` and `DiscordChannel` dataclasses,
their `build`, `resolve`, `from_member` / `from_channel` constructors and the
`mention` / `guild` accessors, shallowly embedded in Lean.

External SDK objects (discord.Guild, discord.Member / discord.User,
discord.TextChannel / discord.DMChannel, commands.Context) are modelled as
plain data: a guild carries the provider lookup functions `get_member` /
`get_channel` as fields, each of which may return an object, return nothing,
or raise an exception, exactly the outcomes the source distinguishes.
Python truthiness on the optional string argument `name` (`not name` is true
for both None and the empty string) is modelled explicitly.
-/

namespace Minder

/-- Exception raised by a provider call on a guild: either the chat SDK's
NotFound (discord.errors.NotFound), which the source treats as benign, or any
other failure (authorization, transport, ...) carried with its message. -/
inductive Exn where
  | notFound : Exn
  | other : String → Exn
deriving DecidableEq

mutual

/-- A discord.Guild as consumed by the source: an id and a name (used for
logging), and the two provider lookups `get_member` and `get_channel`. -/
inductive Guild : Type where
  | mk (id : Int) (name : String)
      (getMember : Int → MemberCall) (getChannel : Int → ChannelCall) : Guild

/-- Outcome of a `guild.get_member(id)` call: a plain return value (a member,
or None when the lookup finds nothing) or a raised exception. -/
inductive MemberCall : Type where
  | returns (m : Option Member) : MemberCall
  | raises (e : Exn) : MemberCall

/-- Outcome of a `guild.get_channel(id)` call: a plain return value (a channel,
or None when the lookup finds nothing) or a raised exception. -/
inductive ChannelCall : Type where
  | returns (c : Option Channel) : ChannelCall
  | raises (e : Exn) : ChannelCall

/-- A live member object (discord.Member or discord.User): id, name, its
platform mention string, and an optional guild backreference (absent for a
bare discord.User). -/
inductive Member : Type where
  | mk (id : Int) (name : String) (mention : String) (guild : Option Guild) : Member

/-- A live channel object (discord.TextChannel or discord.DMChannel): id,
name, mention string, an optional guild backreference (absent for a DM
channel), and its runtime kind — `isDM` models `isinstance(·, discord.DMChannel)`. -/
inductive Channel : Type where
  | mk (id : Int) (name : String) (mention : String) (guild : Option Guild)
      (isDM : Bool) : Channel

end

def Guild.id : Guild → Int
  | .mk i _ _ _ => i

def Guild.name : Guild → String
  | .mk _ n _ _ => n

def Guild.getMember : Guild → Int → MemberCall
  | .mk _ _ f _ => f

def Guild.getChannel : Guild → Int → ChannelCall
  | .mk _ _ _ f => f

def Member.id : Member → Int
  | .mk i _ _ _ => i

def Member.name : Member → String
  | .mk _ n _ _ => n

def Member.mention : Member → String
  | .mk _ _ s _ => s

def Member.guild : Member → Option Guild
  | .mk _ _ _ g => g

def Channel.id : Channel → Int
  | .mk i _ _ _ _ => i

def Channel.name : Channel → String
  | .mk _ n _ _ _ => n

def Channel.mention : Channel → String
  | .mk _ _ s _ _ => s

def Channel.guild : Channel → Option Guild
  | .mk _ _ _ g _ => g

def Channel.isDM : Channel → Bool
  | .mk _ _ _ _ b => b

/-- A commands.Context as consumed by the source: the only uses are its
`guild` attribute and its identity (it is attached to errors for diagnostics). -/
structure Context where
  guild : Guild

/-- The duck-typed `ContextOrGuild = Union[commands.Context, discord.Guild]`
argument of `build`, as a tagged union. -/
inductive ContextOrGuild where
  | guild (g : Guild) : ContextOrGuild
  | context (c : Context) : ContextOrGuild

/-- Embeds `context_or_guild if not isinstance(context_or_guild, commands.Context)
else context_or_guild.guild`. -/
def ContextOrGuild.extractGuild : ContextOrGuild → Guild
  | .guild g => g
  | .context c => c.guild

/-- Embeds `context_or_guild if isinstance(context_or_guild, commands.Context)
else None`. -/
def ContextOrGuild.asContext : ContextOrGuild → Option Context
  | .guild _ => none
  | .context c => some c

/-- The distinct f-string messages raised in src/minder/types.py, one
constructor per raise site's format string, carrying the interpolated
arguments. -/
inductive ErrMsg where
  | noGuildContextUser (id : Int) : ErrMsg
  | failedResolveMember (id : Int) : ErrMsg
  | generalErrorMember (id : Int) (ex : Exn) : ErrMsg
  | noGuildContextChannel (id : Int) : ErrMsg
  | failedResolveChannel (id : Int) : ErrMsg
  | generalErrorChannel (id : Int) (ex : Exn) : ErrMsg
deriving DecidableEq

/-- Modelled from the spec: minder/errors.py is not part of the source excerpt
(only its import and the raise sites are visible). Reconstructed from the call
sites in src/minder/types.py and the spec's error-handling section: an error
value carrying a message, an optional originating command context (the
`context=ctx` keyword), and an optional base exception preserved as its cause
(the `base_exception=ex` keyword). -/
structure MinderBotError where
  msg : ErrMsg
  context : Option Context := none
  base_exception : Option Exn := none

/-- Modelled from the spec: the spec's error taxonomy classifies the single
MinderBotError class by raise site; a ConfigurationError is the
"no guild/context provided ... and no name" failure raised before any lookup. -/
def isConfigurationError (e : MinderBotError) : Bool :=
  match e.msg with
  | .noGuildContextUser _ => true
  | .noGuildContextChannel _ => true
  | _ => false

/-- Modelled from the spec: a ResolutionError is either the "failed to resolve
id and no name provided" failure or the wrapper around a provider failure other
than NotFound. -/
def isResolutionError (e : MinderBotError) : Bool :=
  match e.msg with
  | .failedResolveMember _ => true
  | .generalErrorMember _ _ => true
  | .failedResolveChannel _ => true
  | .generalErrorChannel _ _ => true
  | _ => false

/-- Python truthiness test the source applies to the optional `name` argument:
`not name` is true exactly when name is None or the empty string. -/
def pyFalsyStr : Option String → Bool
  | none => true
  | some s => s == ""

/-- The DiscordMember dataclass: `id` and `name`, plus the InitVar-backed
internal references `_guild` and `_member` (both default None). -/
structure DiscordMember where
  id : Int
  name : String
  _guild : Option Guild := none
  _member : Option Member := none

/-- Embeds the `mention` property:
`self._member.mention if self._member else self.name`. -/
def DiscordMember.mention (r : DiscordMember) : String :=
  match r._member with
  | some m => m.mention
  | none => r.name

/-- Embeds the `guild` property: return `_guild` if truthy; else if `_member`
and `_member.guild` are truthy return `_member.guild`; else None. -/
def DiscordMember.guild (r : DiscordMember) : Option Guild :=
  match r._guild with
  | some g => some g
  | none =>
    match r._member with
    | some m =>
      match m.guild with
      | some g => some g
      | none => none
    | none => none

/-- Embeds the `member` property: returns `_member`. -/
def DiscordMember.member (r : DiscordMember) : Option Member :=
  r._member

/-- Embeds `DiscordMember.resolve`: calls `guild.get_member(id)` inside
try/except; a raised non-NotFound exception is wrapped in a MinderBotError
carrying it as base_exception; a raised NotFound is logged and mapped to None;
a plain return value (member or None) is passed through. -/
def DiscordMember.resolve (id : Int) (guild : Guild) :
    Except MinderBotError (Option Member) :=
  match guild.getMember id with
  | .returns m => .ok m
  | .raises ex =>
    match ex with
    | .notFound => .ok none
    | .other s =>
      .error { msg := .generalErrorMember id (.other s),
               base_exception := some (.other s) }

/-- Embeds `DiscordMember.build`. With no context_or_guild: a falsy name raises
the "No guild/context provided ..." MinderBotError, otherwise the record is
built with no guild and no member. With a context_or_guild: the guild is
extracted, `resolve` is called (its error propagates); if name is falsy and no
member was resolved, the "Failed to resolve member ID ..." MinderBotError is
raised carrying the context when one was supplied; if name is falsy and a
member was resolved, name is taken from the member; finally the record is
built from id, name, guild and member. -/
def DiscordMember.build (id : Int) (name : Option String)
    (context_or_guild : Option ContextOrGuild) :
    Except MinderBotError DiscordMember :=
  match context_or_guild with
  | none =>
    if pyFalsyStr name then
      .error { msg := .noGuildContextUser id }
    else
      .ok { id := id, name := name.getD "", _guild := none, _member := none }
  | some cg =>
    let guild := cg.extractGuild
    match DiscordMember.resolve id guild with
    | .error e => .error e
    | .ok member =>
      if pyFalsyStr name then
        match member with
        | none =>
          .error { msg := .failedResolveMember id, context := cg.asContext }
        | some m =>
          .ok { id := id, name := m.name, _guild := some guild, _member := member }
      else
        .ok { id := id, name := name.getD "", _guild := some guild, _member := member }

/-- Embeds `DiscordMember.from_member`: wraps a live member directly, copying
id and name and storing the member's guild backreference and the member itself. -/
def DiscordMember.from_member (member : Member) : DiscordMember :=
  { id := member.id, name := member.name,
    _guild := member.guild, _member := some member }

/-- The DiscordChannel dataclass: `id`, `name`, the optional `is_dm` flag, plus
the InitVar-backed internal references `_guild` and `_channel`. -/
structure DiscordChannel where
  id : Int
  name : String
  is_dm : Option Bool := none
  _guild : Option Guild := none
  _channel : Option Channel := none

/-- Embeds the `mention` property:
`self._channel.mention if self._channel else self.name`. -/
def DiscordChannel.mention (r : DiscordChannel) : String :=
  match r._channel with
  | some c => c.mention
  | none => r.name

/-- Embeds the `guild` property: return `_guild` if truthy; else if `_channel`
and `_channel.guild` are truthy return `_channel.guild`; else None. -/
def DiscordChannel.guild (r : DiscordChannel) : Option Guild :=
  match r._guild with
  | some g => some g
  | none =>
    match r._channel with
    | some c =>
      match c.guild with
      | some g => some g
      | none => none
    | none => none

/-- Embeds the `channel` property: returns `_channel`. -/
def DiscordChannel.channel (r : DiscordChannel) : Option Channel :=
  r._channel

/-- Embeds `if is_dm is None and channel: is_dm = isinstance(channel,
discord.DMChannel)` — the derivation the source applies before constructing
the record. -/
def deriveIsDM (is_dm : Option Bool) (channel : Option Channel) : Option Bool :=
  match is_dm, channel with
  | none, some c => some c.isDM
  | _, _ => is_dm

/-- Embeds `DiscordChannel.resolve`: calls `guild.get_channel(id)` inside
try/except; a raised non-NotFound exception is wrapped in a MinderBotError
carrying it as base_exception; a raised NotFound is logged and mapped to None;
a plain return value (channel or None) is passed through. -/
def DiscordChannel.resolve (id : Int) (guild : Guild) :
    Except MinderBotError (Option Channel) :=
  match guild.getChannel id with
  | .returns c => .ok c
  | .raises ex =>
    match ex with
    | .notFound => .ok none
    | .other s =>
      .error { msg := .generalErrorChannel id (.other s),
               base_exception := some (.other s) }

/-- Embeds `DiscordChannel.build`: same shape as the member variant, with the
extra `is_dm` argument; after name resolution, `is_dm` is derived from the
resolved channel's runtime type when it was not supplied and a channel is
present, and the record is built from id, name, is_dm, guild and channel. -/
def DiscordChannel.build (id : Int) (name : Option String) (is_dm : Option Bool)
    (context_or_guild : Option ContextOrGuild) :
    Except MinderBotError DiscordChannel :=
  match context_or_guild with
  | none =>
    if pyFalsyStr name then
      .error { msg := .noGuildContextChannel id }
    else
      .ok { id := id, name := name.getD "", is_dm := deriveIsDM is_dm none,
            _guild := none, _channel := none }
  | some cg =>
    let guild := cg.extractGuild
    match DiscordChannel.resolve id guild with
    | .error e => .error e
    | .ok channel =>
      if pyFalsyStr name then
        match channel with
        | none =>
          .error { msg := .failedResolveChannel id, context := cg.asContext }
        | some c =>
          .ok { id := id, name := c.name, is_dm := deriveIsDM is_dm channel,
                _guild := some guild, _channel := channel }
      else
        .ok { id := id, name := name.getD "", is_dm := deriveIsDM is_dm channel,
              _guild := some guild, _channel := channel }

/-- Embeds `DiscordChannel.from_channel`: wraps a live channel directly,
copying id and name, deriving `is_dm` from the channel's runtime type, and
storing the channel itself; unlike `from_member`, no `_guild` is passed, so it
keeps its default None. -/
def DiscordChannel.from_channel (channel : Channel) : DiscordChannel :=
  { id := channel.id, name := channel.name, is_dm := some channel.isDM,
    _channel := some channel }

/-- Instrumented variant of `DiscordMember.resolve` that also reports the
number of `guild.get_member` calls it performs: exactly one. -/
def DiscordMember.resolveT (id : Int) (guild : Guild) :
    Except MinderBotError (Option Member) × Nat :=
  (DiscordMember.resolve id guild, 1)

/-- Instrumented variant of `DiscordMember.build` with the same branch
structure, additionally reporting the number of `guild.get_member` calls
performed: none on the no-context branch, and exactly the calls of the one
`resolve` invocation otherwise. -/
def DiscordMember.buildT (id : Int) (name : Option String)
    (context_or_guild : Option ContextOrGuild) :
    Except MinderBotError DiscordMember × Nat :=
  match context_or_guild with
  | none =>
    if pyFalsyStr name then
      (.error { msg := .noGuildContextUser id }, 0)
    else
      (.ok { id := id, name := name.getD "", _guild := none, _member := none }, 0)
  | some cg =>
    let guild := cg.extractGuild
    match DiscordMember.resolveT id guild with
    | (.error e, n) => (.error e, n)
    | (.ok member, n) =>
      if pyFalsyStr name then
        match member with
        | none =>
          (.error { msg := .failedResolveMember id, context := cg.asContext }, n)
        | some m =>
          (.ok { id := id, name := m.name, _guild := some guild, _member := member }, n)
      else
        (.ok { id := id, name := name.getD "", _guild := some guild, _member := member }, n)

/-- Instrumented variant of `DiscordChannel.resolve` that also reports the
number of `guild.get_channel` calls it performs: exactly one. -/
def DiscordChannel.resolveT (id : Int) (guild : Guild) :
    Except MinderBotError (Option Channel) × Nat :=
  (DiscordChannel.resolve id guild, 1)

/-- Instrumented variant of `DiscordChannel.build` with the same branch
structure, additionally reporting the number of `guild.get_channel` calls
performed. -/
def DiscordChannel.buildT (id : Int) (name : Option String) (is_dm : Option Bool)
    (context_or_guild : Option ContextOrGuild) :
    Except MinderBotError DiscordChannel × Nat :=
  match context_or_guild with
  | none =>
    if pyFalsyStr name then
      (.error { msg := .noGuildContextChannel id }, 0)
    else
      (.ok { id := id, name := name.getD "", is_dm := deriveIsDM is_dm none,
             _guild := none, _channel := none }, 0)
  | some cg =>
    let guild := cg.extractGuild
    match DiscordChannel.resolveT id guild with
    | (.error e, n) => (.error e, n)
    | (.ok channel, n) =>
      if pyFalsyStr name then
        match channel with
        | none =>
          (.error { msg := .failedResolveChannel id, context := cg.asContext }, n)
        | some c =>
          (.ok { id := id, name := c.name, is_dm := deriveIsDM is_dm channel,
                 _guild := some guild, _channel := channel }, n)
      else
        (.ok { id := id, name := name.getD "", is_dm := deriveIsDM is_dm channel,
               _guild := some guild, _channel := channel }, n)

/-! Concrete fixtures used by the witness and counterexample theorems. -/

/-- A live member with a non-empty name and no guild backreference. -/
def mAlice : Member := .mk 42 "alice" "<@42>" none

/-- A live text channel with a non-empty name and no guild backreference. -/
def chGeneral : Channel := .mk 7 "general" "<#7>" none false

/-- A live DM channel: `isDM` true, no guild backreference. -/
def chDM : Channel := .mk 11 "dm" "<#11>" none true

/-- A live member with an empty name. -/
def mEmptyName : Member := .mk 3 "" "<@3>" none

/-- A guild whose provider lookups always raise NotFound. -/
def gNotFound : Guild :=
  .mk 5 "guild-nf" (fun _ => .raises .notFound) (fun _ => .raises .notFound)

/-- A guild whose provider lookups return `mAlice` and `chGeneral`. -/
def gFound : Guild :=
  .mk 6 "guild-f" (fun _ => .returns (some mAlice)) (fun _ => .returns (some chGeneral))

/-- A guild whose provider lookups raise a non-NotFound (authorization) failure. -/
def gAuthFail : Guild :=
  .mk 8 "guild-auth" (fun _ => .raises (.other "forbidden"))
    (fun _ => .raises (.other "forbidden"))

/-- Claim C1: for every build call — member or channel variant — with a scope
supplied, where the provider lookup comes back absent and no name is supplied,
build fails with the "failed to resolve" MinderBotError (a ResolutionError in
the spec's taxonomy, carrying the richer context when one was given) rather
than constructing a record. -/
theorem build_notFound_noName_raises_resolutionError
    (id : Int) (cg : ContextOrGuild) (is_dm : Option Bool)
    (hm : DiscordMember.resolve id cg.extractGuild = .ok none)
    (hc : DiscordChannel.resolve id cg.extractGuild = .ok none) :
    DiscordMember.build id none (some cg)
      = .error { msg := .failedResolveMember id, context := cg.asContext } ∧
    DiscordChannel.build id none is_dm (some cg)
      = .error { msg := .failedResolveChannel id, context := cg.asContext } ∧
    isResolutionError { msg := ErrMsg.failedResolveMember id, context := cg.asContext } = true ∧
    isResolutionError { msg := ErrMsg.failedResolveChannel id, context := cg.asContext } = true := by
  refine ⟨?_, ?_, rfl, rfl⟩
  · simp [DiscordMember.build, hm, pyFalsyStr]
  · simp [DiscordChannel.build, hc, pyFalsyStr]

/-- Witness for C1: the hypotheses hold at id 42 on a guild whose lookups
raise NotFound, and the conclusion follows by the theorem. -/
theorem build_notFound_noName_raises_resolutionError_witness :
    (DiscordMember.resolve 42 (ContextOrGuild.guild gNotFound).extractGuild = .ok none) ∧
    (DiscordChannel.resolve 42 (ContextOrGuild.guild gNotFound).extractGuild = .ok none) ∧
    (DiscordMember.build 42 none (some (.guild gNotFound))
       = .error { msg := .failedResolveMember 42, context := none } ∧
     DiscordChannel.build 42 none none (some (.guild gNotFound))
       = .error { msg := .failedResolveChannel 42, context := none } ∧
     isResolutionError { msg := ErrMsg.failedResolveMember 42, context := none } = true ∧
     isResolutionError { msg := ErrMsg.failedResolveChannel 42, context := none } = true) :=
  ⟨rfl, rfl, build_notFound_noName_raises_resolutionError 42 (.guild gNotFound) none rfl rfl⟩

/-- Claim C2: with a scope and a (non-falsy) name supplied, a provider lookup
that comes back absent is benign: build succeeds and the record's mention
equals the supplied name, with no live member reference stored. -/
theorem build_notFound_withName_succeeds
    (id : Int) (s : String) (cg : ContextOrGuild)
    (hs : s ≠ "")
    (hm : DiscordMember.resolve id cg.extractGuild = .ok none) :
    ∃ r, DiscordMember.build id (some s) (some cg) = .ok r ∧
      r.mention = s ∧ r._member = none := by
  refine ⟨{ id := id, name := s, _guild := some cg.extractGuild,
            _member := none },
    ?_, rfl, rfl⟩
  simp [DiscordMember.build, hm, pyFalsyStr, hs]

/-- Witness for C2: at id 42, name "bob", on a guild whose lookup raises
NotFound. -/
theorem build_notFound_withName_succeeds_witness :
    ("bob" ≠ "") ∧
    (DiscordMember.resolve 42 (ContextOrGuild.guild gNotFound).extractGuild = .ok none) ∧
    (∃ r, DiscordMember.build 42 (some "bob") (some (.guild gNotFound)) = .ok r ∧
       r.mention = "bob" ∧ r._member = none) :=
  ⟨by decide, rfl,
    build_notFound_withName_succeeds 42 "bob" (.guild gNotFound) (by decide) rfl⟩

/-- Claim C3: with a scope supplied and the provider lookup returning a live
member, build succeeds for any name argument and the record's mention equals
the live member's mention string; when no name was supplied, the record's name
equals the live member's name. -/
theorem build_found_uses_live_object
    (id : Int) (m : Member) (cg : ContextOrGuild)
    (hm : DiscordMember.resolve id cg.extractGuild = .ok (some m)) :
    (∀ name, ∃ r, DiscordMember.build id name (some cg) = .ok r ∧
       r.mention = m.mention) ∧
    (∃ r, DiscordMember.build id none (some cg) = .ok r ∧ r.name = m.name) := by
  constructor
  · intro name
    by_cases hf : pyFalsyStr name = true
    · exact ⟨{ id := id, name := m.name, _guild := some cg.extractGuild,
               _member := some m },
        by simp [DiscordMember.build, hm, hf], rfl⟩
    · exact ⟨{ id := id, name := name.getD "", _guild := some cg.extractGuild,
               _member := some m },
        by simp [DiscordMember.build, hm, hf], rfl⟩
  · exact ⟨{ id := id, name := m.name, _guild := some cg.extractGuild,
             _member := some m },
      by simp [DiscordMember.build, hm, pyFalsyStr], rfl⟩

/-- Witness for C3: at id 42 on a guild whose lookup returns `mAlice`. -/
theorem build_found_uses_live_object_witness :
    (DiscordMember.resolve 42 (ContextOrGuild.guild gFound).extractGuild
       = .ok (some mAlice)) ∧
    ((∀ name, ∃ r, DiscordMember.build 42 name (some (.guild gFound)) = .ok r ∧
        r.mention = mAlice.mention) ∧
     (∃ r, DiscordMember.build 42 none (some (.guild gFound)) = .ok r ∧
        r.name = mAlice.name)) :=
  ⟨rfl, build_found_uses_live_object 42 mAlice (.guild gFound) rfl⟩

/-- Claim C4: when the provider call raises a failure other than NotFound,
resolve — member or channel variant — fails with a MinderBotError (a
ResolutionError in the spec's taxonomy) preserving the original failure as its
base_exception, and build propagates that very error to the caller. -/
theorem resolve_otherFailure_wraps_and_propagates
    (id : Int) (s : String) (cg : ContextOrGuild)
    (name : Option String) (is_dm : Option Bool)
    (hm : cg.extractGuild.getMember id = .raises (.other s))
    (hc : cg.extractGuild.getChannel id = .raises (.other s)) :
    (∃ e, DiscordMember.resolve id cg.extractGuild = .error e ∧
       e.base_exception = some (.other s) ∧
       isResolutionError e = true ∧
       DiscordMember.build id name (some cg) = .error e) ∧
    (∃ e, DiscordChannel.resolve id cg.extractGuild = .error e ∧
       e.base_exception = some (.other s) ∧
       isResolutionError e = true ∧
       DiscordChannel.build id name is_dm (some cg) = .error e) := by
  constructor
  · refine ⟨{ msg := .generalErrorMember id (.other s),
              base_exception := some (.other s) }, ?_, rfl, rfl, ?_⟩
    · simp [DiscordMember.resolve, hm]
    · simp [DiscordMember.build, DiscordMember.resolve, hm]
  · refine ⟨{ msg := .generalErrorChannel id (.other s),
              base_exception := some (.other s) }, ?_, rfl, rfl, ?_⟩
    · simp [DiscordChannel.resolve, hc]
    · simp [DiscordChannel.build, DiscordChannel.resolve, hc]

/-- Witness for C4: at id 42 on a guild whose lookups raise an authorization
failure. -/
theorem resolve_otherFailure_wraps_and_propagates_witness :
    ((ContextOrGuild.guild gAuthFail).extractGuild.getMember 42
       = .raises (.other "forbidden")) ∧
    ((ContextOrGuild.guild gAuthFail).extractGuild.getChannel 42
       = .raises (.other "forbidden")) ∧
    ((∃ e, DiscordMember.resolve 42 (ContextOrGuild.guild gAuthFail).extractGuild
         = .error e ∧
       e.base_exception = some (.other "forbidden") ∧
       isResolutionError e = true ∧
       DiscordMember.build 42 none (some (.guild gAuthFail)) = .error e) ∧
     (∃ e, DiscordChannel.resolve 42 (ContextOrGuild.guild gAuthFail).extractGuild
         = .error e ∧
       e.base_exception = some (.other "forbidden") ∧
       isResolutionError e = true ∧
       DiscordChannel.build 42 none none (some (.guild gAuthFail)) = .error e)) :=
  ⟨rfl, rfl,
    resolve_otherFailure_wraps_and_propagates 42 "forbidden" (.guild gAuthFail)
      none none rfl rfl⟩

/-- Helper: a name that is not Python-falsy is some non-empty string, so its
getD extraction is non-empty. -/
theorem getD_ne_empty_of_not_falsy (name : Option String)
    (h : pyFalsyStr name = false) : name.getD "" ≠ "" := by
  cases name with
  | none => simp [pyFalsyStr] at h
  | some s =>
    simp [pyFalsyStr] at h
    simpa using h

/-- Helper: the instrumented member build agrees with the plain one on the
result component. -/
theorem buildT_fst_member (id : Int) (name : Option String)
    (c : Option ContextOrGuild) :
    (DiscordMember.buildT id name c).fst = DiscordMember.build id name c := by
  cases c with
  | none =>
    by_cases h : pyFalsyStr name = true <;>
      simp [DiscordMember.buildT, DiscordMember.build, h]
  | some cg =>
    cases hr : DiscordMember.resolve id cg.extractGuild with
    | error e =>
      simp [DiscordMember.buildT, DiscordMember.build, DiscordMember.resolveT, hr]
    | ok mem =>
      cases mem with
      | none =>
        by_cases h : pyFalsyStr name = true <;>
          simp [DiscordMember.buildT, DiscordMember.build, DiscordMember.resolveT, hr, h]
      | some m =>
        by_cases h : pyFalsyStr name = true <;>
          simp [DiscordMember.buildT, DiscordMember.build, DiscordMember.resolveT, hr, h]

/-- Helper: the instrumented channel build agrees with the plain one on the
result component. -/
theorem buildT_fst_channel (id : Int) (name : Option String) (is_dm : Option Bool)
    (c : Option ContextOrGuild) :
    (DiscordChannel.buildT id name is_dm c).fst
      = DiscordChannel.build id name is_dm c := by
  cases c with
  | none =>
    by_cases h : pyFalsyStr name = true <;>
      simp [DiscordChannel.buildT, DiscordChannel.build, h]
  | some cg =>
    cases hr : DiscordChannel.resolve id cg.extractGuild with
    | error e =>
      simp [DiscordChannel.buildT, DiscordChannel.build, DiscordChannel.resolveT, hr]
    | ok ch =>
      cases ch with
      | none =>
        by_cases h : pyFalsyStr name = true <;>
          simp [DiscordChannel.buildT, DiscordChannel.build, DiscordChannel.resolveT, hr, h]
      | some c0 =>
        by_cases h : pyFalsyStr name = true <;>
          simp [DiscordChannel.buildT, DiscordChannel.build, DiscordChannel.resolveT, hr, h]

/-- Claim C5: with both scope_context and name absent, build — member or
channel variant — fails with the "No guild/context provided" MinderBotError
(a ConfigurationError in the spec's taxonomy, distinct from the
ResolutionError class), constructs no record, and performs zero provider
lookups; the instrumented builds agree with the plain ones everywhere. -/
theorem build_noScope_noName_configurationError (id : Int) (is_dm : Option Bool) :
    (∀ name c, (DiscordMember.buildT id name c).fst = DiscordMember.build id name c) ∧
    (∀ name i c, (DiscordChannel.buildT id name i c).fst = DiscordChannel.build id name i c) ∧
    DiscordMember.buildT id none none
      = (.error { msg := .noGuildContextUser id }, 0) ∧
    DiscordChannel.buildT id none is_dm none
      = (.error { msg := .noGuildContextChannel id }, 0) ∧
    isConfigurationError { msg := ErrMsg.noGuildContextUser id } = true ∧
    isResolutionError { msg := ErrMsg.noGuildContextUser id } = false ∧
    isConfigurationError { msg := ErrMsg.noGuildContextChannel id } = true ∧
    isResolutionError { msg := ErrMsg.noGuildContextChannel id } = false := by
  refine ⟨fun name c => buildT_fst_member id name c,
    fun name i c => buildT_fst_channel id name i c, rfl, ?_, rfl, rfl, rfl, rfl⟩
  cases is_dm <;> rfl

/-- Witness for C5: instantiated at id 7. -/
theorem build_noScope_noName_configurationError_witness :
    DiscordMember.buildT 7 none none
      = (.error { msg := .noGuildContextUser 7 }, 0) ∧
    DiscordChannel.buildT 7 none none none
      = (.error { msg := .noGuildContextChannel 7 }, 0) ∧
    isConfigurationError { msg := ErrMsg.noGuildContextUser 7 } = true ∧
    isResolutionError { msg := ErrMsg.noGuildContextUser 7 } = false :=
  ⟨(build_noScope_noName_configurationError 7 none).2.2.1,
   (build_noScope_noName_configurationError 7 none).2.2.2.1,
   (build_noScope_noName_configurationError 7 none).2.2.2.2.1,
   (build_noScope_noName_configurationError 7 none).2.2.2.2.2.1⟩

/-- Counterexample to claim C6 as stated: from_member on a live member whose
name field is the empty string succeeds and yields a record whose name is the
empty string. -/
theorem from_member_emptyName_counterexample :
    (DiscordMember.from_member mEmptyName).name = "" := rfl

/-- Claim C6, amended: every record returned by a successful build or
from_live_object call has a non-empty name, provided the live object whose
name the record could have drawn on (the stored live reference for build, the
wrapped object for from_live_object) has a non-empty name. -/
theorem record_name_nonempty :
    (∀ id name cg r, DiscordMember.build id name cg = .ok r →
       (∀ m, r._member = some m → m.name ≠ "") → r.name ≠ "") ∧
    (∀ id name is_dm cg r, DiscordChannel.build id name is_dm cg = .ok r →
       (∀ c, r._channel = some c → c.name ≠ "") → r.name ≠ "") ∧
    (∀ m : Member, m.name ≠ "" → (DiscordMember.from_member m).name ≠ "") ∧
    (∀ c : Channel, c.name ≠ "" → (DiscordChannel.from_channel c).name ≠ "") := by
  refine ⟨?_, ?_, fun m h => h, fun c h => h⟩
  · intro id name cg r hok hlive
    cases cg with
    | none =>
      by_cases h : pyFalsyStr name = true
      · simp [DiscordMember.build, h] at hok
      · simp [DiscordMember.build, h] at hok
        have := getD_ne_empty_of_not_falsy name (by simpa using h)
        subst hok
        simpa using this
    | some cg =>
      cases hr : DiscordMember.resolve id cg.extractGuild with
      | error e => simp [DiscordMember.build, hr] at hok
      | ok mem =>
        cases mem with
        | none =>
          by_cases h : pyFalsyStr name = true
          · simp [DiscordMember.build, hr, h] at hok
          · simp [DiscordMember.build, hr, h] at hok
            have := getD_ne_empty_of_not_falsy name (by simpa using h)
            subst hok
            simpa using this
        | some m =>
          by_cases h : pyFalsyStr name = true
          · simp [DiscordMember.build, hr, h] at hok
            subst hok
            simpa using hlive m rfl
          · simp [DiscordMember.build, hr, h] at hok
            have := getD_ne_empty_of_not_falsy name (by simpa using h)
            subst hok
            simpa using this
  · intro id name is_dm cg r hok hlive
    cases cg with
    | none =>
      by_cases h : pyFalsyStr name = true
      · simp [DiscordChannel.build, h] at hok
      · simp [DiscordChannel.build, h] at hok
        have := getD_ne_empty_of_not_falsy name (by simpa using h)
        subst hok
        simpa using this
    | some cg =>
      cases hr : DiscordChannel.resolve id cg.extractGuild with
      | error e => simp [DiscordChannel.build, hr] at hok
      | ok ch =>
        cases ch with
        | none =>
          by_cases h : pyFalsyStr name = true
          · simp [DiscordChannel.build, hr, h] at hok
          · simp [DiscordChannel.build, hr, h] at hok
            have := getD_ne_empty_of_not_falsy name (by simpa using h)
            subst hok
            simpa using this
        | some c0 =>
          by_cases h : pyFalsyStr name = true
          · simp [DiscordChannel.build, hr, h] at hok
            subst hok
            simpa using hlive c0 rfl
          · simp [DiscordChannel.build, hr, h] at hok
            have := getD_ne_empty_of_not_falsy name (by simpa using h)
            subst hok
            simpa using this

/-- Witness for the amended C6: from_member on `mAlice` (name "alice") and
from_channel on `chGeneral` (name "general") yield records with non-empty
names. -/
theorem record_name_nonempty_witness :
    ("alice" ≠ "" ∧ (DiscordMember.from_member mAlice).name ≠ "") ∧
    ("general" ≠ "" ∧ (DiscordChannel.from_channel chGeneral).name ≠ "") :=
  ⟨⟨by decide, record_name_nonempty.2.2.1 mAlice (by decide)⟩,
   ⟨by decide, record_name_nonempty.2.2.2 chGeneral (by decide)⟩⟩

/-- Claim C7: from_member and from_channel never fail (they are total) and wrap
the live object directly: id and name copied, live reference set, and the
scope accessor returning the object's own guild backreference; for the channel
variant, is_dm is derived unconditionally from the runtime type, so wrapping a
DM channel always yields is_dm = some true. -/
theorem from_live_object_wraps_directly :
    (∀ m : Member, (DiscordMember.from_member m).id = m.id ∧
       (DiscordMember.from_member m).name = m.name ∧
       (DiscordMember.from_member m)._member = some m ∧
       (DiscordMember.from_member m)._guild = m.guild ∧
       (DiscordMember.from_member m).guild = m.guild) ∧
    (∀ c : Channel, (DiscordChannel.from_channel c).id = c.id ∧
       (DiscordChannel.from_channel c).name = c.name ∧
       (DiscordChannel.from_channel c)._channel = some c ∧
       (DiscordChannel.from_channel c).guild = c.guild ∧
       (DiscordChannel.from_channel c).is_dm = some c.isDM ∧
       (c.isDM = true → (DiscordChannel.from_channel c).is_dm = some true)) := by
  constructor
  · intro m
    refine ⟨rfl, rfl, rfl, rfl, ?_⟩
    cases hg : m.guild <;>
      simp [DiscordMember.from_member, DiscordMember.guild, hg]
  · intro c
    refine ⟨rfl, rfl, rfl, ?_, rfl, fun h => by simp [DiscordChannel.from_channel, h]⟩
    cases hg : c.guild <;>
      simp [DiscordChannel.from_channel, DiscordChannel.guild, hg]

/-- Witness for C7: wrapping the concrete DM channel `chDM` yields
is_dm = some true. -/
theorem from_live_object_wraps_directly_witness :
    chDM.isDM = true ∧ (DiscordChannel.from_channel chDM).is_dm = some true :=
  ⟨rfl, (from_live_object_wraps_directly.2 chDM).2.2.2.2.2 rfl⟩

/-- Claim C8: for both record variants, the guild accessor returns the
explicitly stored scope when present; otherwise, when a live reference is
present, the live object's own guild backreference; otherwise nothing. -/
theorem guild_accessor_priority :
    (∀ r : DiscordMember, ∀ g, r._guild = some g → r.guild = some g) ∧
    (∀ r : DiscordMember, ∀ m, r._guild = none → r._member = some m →
       r.guild = m.guild) ∧
    (∀ r : DiscordMember, r._guild = none → r._member = none → r.guild = none) ∧
    (∀ r : DiscordChannel, ∀ g, r._guild = some g → r.guild = some g) ∧
    (∀ r : DiscordChannel, ∀ c, r._guild = none → r._channel = some c →
       r.guild = c.guild) ∧
    (∀ r : DiscordChannel, r._guild = none → r._channel = none → r.guild = none) := by
  refine ⟨?_, ?_, ?_, ?_, ?_, ?_⟩
  · intro r g h; simp [DiscordMember.guild, h]
  · intro r m h1 h2
    cases hg : m.guild <;> simp [DiscordMember.guild, h1, h2, hg]
  · intro r h1 h2; simp [DiscordMember.guild, h1, h2]
  · intro r g h; simp [DiscordChannel.guild, h]
  · intro r c h1 h2
    cases hg : c.guild <;> simp [DiscordChannel.guild, h1, h2, hg]
  · intro r h1 h2; simp [DiscordChannel.guild, h1, h2]

/-- Concrete member records exercising the three branches of the guild
accessor. -/
def recStoredGuild : DiscordMember :=
  { id := 1, name := "a", _guild := some gFound, _member := none }

/-- Record with no stored guild but a live member reference. -/
def recLiveMember : DiscordMember :=
  { id := 2, name := "b", _guild := none, _member := some mAlice }

/-- Record with neither a stored guild nor a live member reference. -/
def recBare : DiscordMember :=
  { id := 3, name := "c", _guild := none, _member := none }

/-- Witness for C8: the three accessor branches at concrete records. -/
theorem guild_accessor_priority_witness :
    (recStoredGuild._guild = some gFound ∧ recStoredGuild.guild = some gFound) ∧
    (recLiveMember._guild = none ∧ recLiveMember._member = some mAlice ∧
      recLiveMember.guild = mAlice.guild) ∧
    (recBare._guild = none ∧ recBare._member = none ∧ recBare.guild = none) :=
  ⟨⟨rfl, guild_accessor_priority.1 recStoredGuild gFound rfl⟩,
   ⟨rfl, rfl, guild_accessor_priority.2.1 recLiveMember mAlice rfl rfl⟩,
   ⟨rfl, rfl, guild_accessor_priority.2.2.1 recBare rfl rfl⟩⟩

/-- Claim C9: build treats an empty-string name exactly as an absent name —
the two calls are equal in every case — and in particular with no
context_or_guild an empty-string name raises the "No guild/context provided"
MinderBotError. -/
theorem build_emptyName_as_absent (id : Int) (is_dm : Option Bool)
    (cg : Option ContextOrGuild) :
    DiscordMember.build id (some "") cg = DiscordMember.build id none cg ∧
    DiscordChannel.build id (some "") is_dm cg
      = DiscordChannel.build id none is_dm cg ∧
    DiscordMember.build id (some "") none
      = .error { msg := .noGuildContextUser id } ∧
    DiscordChannel.build id (some "") is_dm none
      = .error { msg := .noGuildContextChannel id } := by
  refine ⟨?_, ?_, rfl, rfl⟩
  · cases cg with
    | none => rfl
    | some cg =>
      cases hr : DiscordMember.resolve id cg.extractGuild with
      | error e => simp [DiscordMember.build, hr]
      | ok mem => cases mem <;> simp [DiscordMember.build, hr, pyFalsyStr]
  · cases cg with
    | none => rfl
    | some cg =>
      cases hr : DiscordChannel.resolve id cg.extractGuild with
      | error e => simp [DiscordChannel.build, hr]
      | ok ch => cases ch <;> simp [DiscordChannel.build, hr, pyFalsyStr]

/-- Witness for C9: instantiated at id 7 with no context_or_guild. -/
theorem build_emptyName_as_absent_witness :
    DiscordMember.build 7 (some "") none = DiscordMember.build 7 none none ∧
    DiscordChannel.build 7 (some "") none none
      = DiscordChannel.build 7 none none none :=
  ⟨(build_emptyName_as_absent 7 none none).1,
   (build_emptyName_as_absent 7 none none).2.1⟩

/-- Claim C10: from_channel stores no explicit guild reference (unlike
from_member, which copies the member's guild into the record), so the wrapped
record's guild accessor returns exactly the channel's own backreference — in
particular none for a DM channel. -/
theorem from_channel_no_stored_guild :
    (∀ c : Channel, (DiscordChannel.from_channel c)._guild = none) ∧
    (∀ c : Channel, (DiscordChannel.from_channel c).guild = c.guild) ∧
    (∀ m : Member, (DiscordMember.from_member m)._guild = m.guild) ∧
    (∀ c : Channel, c.guild = none → (DiscordChannel.from_channel c).guild = none) := by
  refine ⟨fun c => rfl, ?_, fun m => rfl, ?_⟩
  · intro c
    cases hg : c.guild <;>
      simp [DiscordChannel.from_channel, DiscordChannel.guild, hg]
  · intro c h
    cases hg : c.guild with
    | none => simp [DiscordChannel.from_channel, DiscordChannel.guild, hg]
    | some g => rw [h] at hg; cases hg

/-- Witness for C10: the DM channel `chDM` has no guild backreference and its
wrapped record's guild accessor returns none. -/
theorem from_channel_no_stored_guild_witness :
    chDM.guild = none ∧ (DiscordChannel.from_channel chDM).guild = none :=
  ⟨rfl, from_channel_no_stored_guild.2.2.2 chDM rfl⟩

end Minder
